import Mathlib

/-!
Verification of the chat/session state manager and the auth startup logic of
the AI trip-planner client.

The embedding translates the state containers of
`src/frontfront/contexts/chat-context.tsx` and the auth context into pure
Lean functions over explicit state.  Conventions:

* A JavaScript `Date` is represented by its instant, a `Nat` of milliseconds
  since the epoch.  All `new Date()` / `Date.now()` calls made inside one
  operation are modelled by the single instant `Env.now` supplied to that
  operation, and `toLocaleDateString()` by the supplied string
  `Env.localeDate` (date formatting is an external platform collaborator in
  the spec's terms).
* `localStorage` is an association list from keys to stored values.  A stored
  session collection is kept in its serialized shape (`SessionJson`): the
  ISO-8601 timestamp string emitted by `Date.prototype.toJSON` is represented
  by the instant it denotes, because the platform guarantees that
  `new Date(iso)` recovers exactly that instant.  A stored string on which
  the parse pipeline of `loadSessions` throws is `StoredVal.corrupt`.
* The `fetch` to the chat API is modelled by an oracle `ChatApiResult`
  supplied to `sendMessage`; `failure` covers both a rejected promise and a
  non-ok response (both reach the same `catch`).  `sendMessage` additionally
  returns the request it issued (`none` when no HTTP call was made).
-/

namespace TripPlanner

/-- Message author tag, `"user" | "assistant"` in the source. -/
inductive Role where
  | user
  | assistant
deriving DecidableEq, Repr

/-- The `Message` interface of `chat-context.tsx`. -/
structure Message where
  id : String
  content : String
  role : Role
  timestamp : Nat
  isTyping : Option Bool
deriving DecidableEq, Repr

/-- The `ChatSession` interface of `chat-context.tsx`. -/
structure ChatSession where
  id : String
  title : String
  messages : List Message
  createdAt : Nat
  updatedAt : Nat
deriving DecidableEq, Repr

/-- The `User` interface of the auth context. -/
structure User where
  id : String
  email : String
  name : String
  isGuest : Option Bool
deriving DecidableEq, Repr

/-- Serialized shape of a message as produced by `JSON.stringify`: the role is
a plain string and the timestamp stands for the ISO-8601 string emitted by
`Date.prototype.toJSON`, represented by the instant it denotes. -/
structure MessageJson where
  id : String
  content : String
  role : String
  timestamp : Nat
  isTyping : Option Bool
deriving DecidableEq, Repr

/-- Serialized shape of a session as produced by `JSON.stringify`. -/
structure SessionJson where
  id : String
  title : String
  messages : List MessageJson
  createdAt : Nat
  updatedAt : Nat
deriving DecidableEq, Repr

/-- A value held in `localStorage` under a sessions key: either a serialized
session collection, or a string on which the parse pipeline of
`loadSessions` throws (`JSON.parse` failure or non-array shape). -/
inductive StoredVal where
  | sessions (xs : List SessionJson)
  | corrupt
deriving DecidableEq, Repr

/-- The browser `localStorage`, restricted to the trip-planner session keys. -/
abbrev Store : Type := List (String × StoredVal)

/-- Key under which a user's session collection is persisted:
`trip_planner_sessions_{userId}`. -/
def sessionsKey (uid : String) : String :=
  "trip_planner_sessions_" ++ uid

/-- Model of `localStorage.getItem`. -/
def getItem (store : Store) (k : String) : Option StoredVal :=
  (store.find? (fun p => p.1 = k)).map (fun p => p.2)

/-- Model of `localStorage.setItem`: replaces any previous binding of the key. -/
def setItem (store : Store) (k : String) (v : StoredVal) : Store :=
  (k, v) :: store.filter (fun p => p.1 ≠ k)

/-- The React state owned by `ChatProvider`, together with the storage it
writes through. -/
structure ChatState where
  sessions : List ChatSession
  currentSession : Option ChatSession
  loading : Bool
  isTyping : Bool
  store : Store
deriving DecidableEq, Repr

/-- Ambient values a single operation reads from the platform: the current
instant (`Date.now()` / `new Date()`) and the localized date string
(`toLocaleDateString()`). -/
structure Env where
  now : Nat
  localeDate : String
deriving DecidableEq, Repr

/-- Result of the `fetch` to `/api/chat`: `failure` covers a rejected promise
and a non-ok response alike (both reach the same `catch` block); `success`
carries `data.response`. -/
inductive ChatApiResult where
  | failure
  | success (response : String)
deriving DecidableEq, Repr

/-- The body of the HTTP request issued by `sendMessage`. -/
structure ChatRequest where
  message : String
  session_id : String
  history : List (String × String)
deriving DecidableEq, Repr

/-- JavaScript `toLowerCase`, character by character (ASCII range, which is
all the source's fixed word lists use). -/
def toLowerStr (s : String) : String :=
  String.mk (s.data.map Char.toLower)

/-- Split a character list at every character satisfying the predicate, the
semantics of JavaScript `split`: consecutive separators yield empty tokens
and the empty string yields one empty token. -/
def splitCharsWhen (p : Char → Bool) : List Char → List (List Char)
  | [] => [[]]
  | c :: cs =>
    let rest := splitCharsWhen p cs
    if p c then [] :: rest
    else
      match rest with
      | [] => [[c]]
      | t :: ts => (c :: t) :: ts

/-- JavaScript `split(" ")` on strings: split at the space character only. -/
def splitOnSpace (s : String) : List String :=
  (splitCharsWhen (fun c => c == ' ') s.data).map String.mk

/-- JavaScript `trim`: drop whitespace from both ends. -/
def trimStr (s : String) : String :=
  String.mk (((s.data.dropWhile Char.isWhitespace).reverse.dropWhile Char.isWhitespace).reverse)

/-- String form of a role, as stored in JSON. -/
def roleString : Role → String
  | Role.user => "user"
  | Role.assistant => "assistant"

/-- Inverse of `roleString`.  The source performs no validation on load; this
decoder only ever fails on role strings the application never writes. -/
def decodeRole : String → Option Role
  | "user" => some Role.user
  | "assistant" => some Role.assistant
  | _ => none

/-- Serialization of one message by `JSON.stringify`. -/
def serializeMessage (m : Message) : MessageJson :=
  ⟨m.id, m.content, roleString m.role, m.timestamp, m.isTyping⟩

/-- Serialization of one session by `JSON.stringify`. -/
def serializeSession (s : ChatSession) : SessionJson :=
  ⟨s.id, s.title, s.messages.map serializeMessage, s.createdAt, s.updatedAt⟩

/-- Serialization of the whole collection, as written by `saveSessions`. -/
def serializeSessions (xs : List ChatSession) : List SessionJson :=
  xs.map serializeSession

/-- Map a fallible function over a list, failing as soon as one element
fails; this is the effect of the `.map` calls inside the `try` of
`loadSessions`. -/
def traverseOption (f : α → Option β) : List α → Option (List β)
  | [] => some []
  | a :: as =>
    match f a with
    | none => none
    | some b =>
      match traverseOption f as with
      | none => none
      | some bs => some (b :: bs)

/-- Reconstruction of one message in `loadSessions`: the spread restores every
field and `new Date(msg.timestamp)` recovers the instant. -/
def decodeMessage (mj : MessageJson) : Option Message :=
  (decodeRole mj.role).map (fun r => ⟨mj.id, mj.content, r, mj.timestamp, mj.isTyping⟩)

/-- Reconstruction of one session in `loadSessions`. -/
def decodeSession (sj : SessionJson) : Option ChatSession :=
  (traverseOption decodeMessage sj.messages).map
    (fun ms => ⟨sj.id, sj.title, ms, sj.createdAt, sj.updatedAt⟩)

/-- The whole parse pipeline of `loadSessions` applied to a stored value:
`JSON.parse` followed by the reconstruction maps; `none` is the caught
exception branch. -/
def decodeStored : StoredVal → Option (List ChatSession)
  | StoredVal.corrupt => none
  | StoredVal.sessions xs => traverseOption decodeSession xs

/-- The `saveSessions` helper: writes the serialized collection under the
user's key, and does nothing at all when no user is active. -/
def saveSessions (user : Option User) (store : Store) (xs : List ChatSession) : Store :=
  match user with
  | some u => setItem store (sessionsKey u.id) (StoredVal.sessions (serializeSessions xs))
  | none => store

/-- The session built by `createNewSession`. -/
def newSessionOf (env : Env) : ChatSession :=
  ⟨"session_" ++ toString env.now, "New Trip Plan", [], env.now, env.now⟩

/-- `createNewSession`: prepend a fresh empty session, make it current,
persist the updated collection. -/
def createNewSession (env : Env) (user : Option User) (st : ChatState) : ChatState :=
  let ns := newSessionOf env
  let updatedSessions := ns :: st.sessions
  { st with
    sessions := updatedSessions
    currentSession := some ns
    store := saveSessions user st.store updatedSessions }

/-- `selectSession`: set the current session to the first member with the
given id, and do nothing when none matches. -/
def selectSession (sessionId : String) (st : ChatState) : ChatState :=
  match st.sessions.find? (fun s => s.id = sessionId) with
  | some s => { st with currentSession := some s }
  | none => st

/-- The stoplist of `generateSessionTitle`. -/
def stopWords : List String :=
  ["trip", "plan", "travel", "visit", "going", "want", "like", "help"]

/-- The filtered token list of `generateSessionTitle`: the lowercased message
is split on the space character and tokens that are short (length ≤ 3) or
stoplisted are discarded. -/
def destinationsOf (firstMessage : String) : List String :=
  (splitOnSpace (toLowerStr firstMessage)).filter
    (fun w => w.length > 3 && !(stopWords.contains w))

/-- `word.charAt(0).toUpperCase() + word.slice(1)`. -/
def capitalizeFirst (s : String) : String :=
  match s.data with
  | [] => ""
  | c :: cs => String.mk (c.toUpper :: cs)

/-- `generateSessionTitle`, translated from the source. -/
def generateSessionTitle (firstMessage : String) (localeDate : String) : String :=
  match destinationsOf firstMessage with
  | d :: _ => "Trip to " ++ capitalizeFirst d
  | [] => "Trip Plan - " ++ localeDate

/-- The optimistic user message appended by `sendMessage`. -/
def userMessageOf (content : String) (env : Env) : Message :=
  ⟨"msg_" ++ toString env.now, content, Role.user, env.now, none⟩

/-- `sendMessage`, translated from the source.  Returns the settled state
together with the HTTP request that was issued, `none` when the
no-current-session branch returned before any network call. -/
def sendMessage (content : String) (env : Env) (res : ChatApiResult)
    (user : Option User) (st : ChatState) : ChatState × Option ChatRequest :=
  match st.currentSession with
  | none => (createNewSession env user st, none)
  | some cs =>
    let userMessage := userMessageOf content env
    let updatedSession : ChatSession :=
      { cs with
        messages := cs.messages ++ [userMessage]
        updatedAt := env.now
        title :=
          if cs.messages.length = 0 then generateSessionTitle content env.localeDate
          else cs.title }
    let req : ChatRequest :=
      { message := content
        session_id := cs.id
        history := cs.messages.map (fun m => (roleString m.role, m.content)) }
    match res with
    | ChatApiResult.success responseText =>
      let assistantMessage : Message :=
        ⟨"msg_" ++ toString (env.now + 1), responseText, Role.assistant, env.now, none⟩
      let finalSession : ChatSession :=
        { updatedSession with
          messages := updatedSession.messages ++ [assistantMessage]
          updatedAt := env.now }
      let updatedSessions := st.sessions.map (fun s => if s.id = cs.id then finalSession else s)
      ({ st with
          currentSession := some finalSession
          sessions := updatedSessions
          store := saveSessions user st.store updatedSessions
          isTyping := false
          loading := false }, some req)
    | ChatApiResult.failure =>
      ({ st with
          currentSession := some cs
          isTyping := false
          loading := false }, some req)

/-- `deleteSession`, translated from the source. -/
def deleteSession (sessionId : String) (user : Option User) (st : ChatState) : ChatState :=
  let updatedSessions := st.sessions.filter (fun s => s.id ≠ sessionId)
  let st1 : ChatState :=
    { st with
      sessions := updatedSessions
      store := saveSessions user st.store updatedSessions }
  match st.currentSession with
  | some cs =>
    if cs.id = sessionId then { st1 with currentSession := updatedSessions.head? } else st1
  | none => st1

/-- `clearCurrentChat`, translated from the source. -/
def clearCurrentChat (env : Env) (user : Option User) (st : ChatState) : ChatState :=
  match st.currentSession with
  | none => st
  | some cs =>
    let clearedSession : ChatSession :=
      { cs with messages := [], title := "New Trip Plan", updatedAt := env.now }
    let updatedSessions := st.sessions.map (fun s => if s.id = cs.id then clearedSession else s)
    { st with
      currentSession := some clearedSession
      sessions := updatedSessions
      store := saveSessions user st.store updatedSessions }

/-- Does the pattern occur at the head of the haystack (character lists)? -/
def charsStartsWith : List Char → List Char → Bool
  | [], _ => true
  | _ :: _, [] => false
  | a :: as, b :: bs => a == b && charsStartsWith as bs

/-- Does the pattern occur anywhere in the haystack (character lists)? -/
def charsHasSub (pat : List Char) : List Char → Bool
  | [] => charsStartsWith pat []
  | b :: bs => charsStartsWith pat (b :: bs) || charsHasSub pat bs

/-- JavaScript `String.prototype.includes`: substring containment. -/
def strIncludes (s sub : String) : Bool :=
  charsHasSub sub.data s.data

/-- `searchSessions`, translated from the source.  It is a pure read: it
does not touch the state or the store, which the return type makes exact. -/
def searchSessions (st : ChatState) (query : String) : List ChatSession :=
  if trimStr query = "" then st.sessions
  else
    st.sessions.filter (fun s =>
      strIncludes (toLowerStr s.title) (toLowerStr query) ||
      s.messages.any (fun m => strIncludes (toLowerStr m.content) (toLowerStr query)))

/-- `loadSessions`, translated from the source: read the active user's key,
run the parse pipeline (exceptions land in the `catch`, which only logs), set
the collection, and make the first session current only when none is. -/
def loadSessions (u : User) (st : ChatState) : ChatState :=
  match getItem st.store (sessionsKey u.id) with
  | none => st
  | some v =>
    match decodeStored v with
    | none => st
    | some parsedSessions =>
      if parsedSessions.length > 0 ∧ st.currentSession = none then
        { st with sessions := parsedSessions, currentSession := parsedSessions.head? }
      else
        { st with sessions := parsedSessions }

/-- The `containsTripPlan` heuristic of the message-bubble component. -/
def containsTripPlan (m : Message) : Bool :=
  !(m.role == Role.user) &&
  (strIncludes (toLowerStr m.content) "itinerary" ||
   strIncludes (toLowerStr m.content) "day 1" ||
   strIncludes (toLowerStr m.content) "schedule" ||
   strIncludes (toLowerStr m.content) "trip plan" ||
   (strIncludes m.content "## Day" && strIncludes m.content "**Start Date:**"))

/-- The title-generation algorithm exactly as the claim words it: the message
is split on whitespace (rather than on the space character only, and without
the lowercasing step), tokens of length ≤ 3 and stoplist words are discarded,
and the first survivor is capitalized.  Stated for comparison against
`generateSessionTitle`, the function translated from the source. -/
def generateSessionTitleClaimed (firstMessage : String) (localeDate : String) : String :=
  let tokens := (splitCharsWhen Char.isWhitespace firstMessage.data).map String.mk
  match tokens.filter (fun w => w.length > 3 && !(stopWords.contains w)) with
  | d :: _ => "Trip to " ++ capitalizeFirst d
  | [] => "Trip Plan - " ++ localeDate

/-- The membership invariant of the session collection: the current session,
if set, has the id of some member of the collection. -/
def currentOkB (st : ChatState) : Bool :=
  match st.currentSession with
  | none => true
  | some cs => st.sessions.any (fun s => s.id == cs.id)

/-- Result of `JSON.parse` on a stored auth entry: a user record, or a string
on which the parse throws. -/
inductive StoredUser where
  | ok (u : User)
  | bad
deriving DecidableEq, Repr

/-- The two persisted auth entries read at startup: the guest-scoped
`trip_planner_guest_user` (sessionStorage) and the registered
`trip_planner_user` (localStorage). -/
structure AuthStorage where
  guestUser : Option StoredUser
  regularUser : Option StoredUser
deriving DecidableEq, Repr

/-- The `checkExistingSession` startup routine of the auth context: guest
entry first, then the registered entry; a parse failure lands in the `catch`,
which removes both entries and leaves the user logged out.  Returns the
resulting active user and the (possibly cleansed) storage. -/
def checkExistingSession (s : AuthStorage) : Option User × AuthStorage :=
  match s.guestUser with
  | some (StoredUser.ok u) => (some u, s)
  | some StoredUser.bad => (none, ⟨none, none⟩)
  | none =>
    match s.regularUser with
    | some (StoredUser.ok u) => (some u, s)
    | some StoredUser.bad => (none, ⟨none, none⟩)
    | none => (none, s)

/-- What claim C1 asserts of a failing `sendMessage` once the operation has
settled: the visible current session is the pre-call one (so the
optimistically-appended user message is gone from view), both flags are
cleared, and neither the collection nor the store changed. -/
def SendFailureReverts (content : String) (env : Env) (user : Option User)
    (st : ChatState) (cs : ChatSession) : Prop :=
  (sendMessage content env ChatApiResult.failure user st).1.currentSession = some cs ∧
  (sendMessage content env ChatApiResult.failure user st).1.isTyping = false ∧
  (sendMessage content env ChatApiResult.failure user st).1.loading = false ∧
  (sendMessage content env ChatApiResult.failure user st).1.sessions = st.sessions ∧
  (sendMessage content env ChatApiResult.failure user st).1.store = st.store ∧
  (userMessageOf content env ∉ cs.messages →
    ∀ s, (sendMessage content env ChatApiResult.failure user st).1.currentSession = some s →
      userMessageOf content env ∉ s.messages)

/-- What claim C5 asserts of `deleteSession`: exactly the sessions carrying
the id are removed (order preserved), the remainder is persisted, and the
current pointer moves to the head of the remainder only when the deleted
session was current. -/
def DeleteSessionSpec (sessionId : String) (user : Option User) (st : ChatState) : Prop :=
  (∀ s, s ∈ (deleteSession sessionId user st).sessions ↔
      s ∈ st.sessions ∧ s.id ≠ sessionId) ∧
  (deleteSession sessionId user st).sessions.Sublist st.sessions ∧
  (deleteSession sessionId user st).store
      = saveSessions user st.store (deleteSession sessionId user st).sessions ∧
  (∀ cs, st.currentSession = some cs → cs.id = sessionId →
    (deleteSession sessionId user st).currentSession
      = (deleteSession sessionId user st).sessions.head?) ∧
  (∀ cs, st.currentSession = some cs → cs.id ≠ sessionId →
    (deleteSession sessionId user st).currentSession = some cs) ∧
  (st.currentSession = none → (deleteSession sessionId user st).currentSession = none)

/-- What claim C9 asserts of `sendMessage` without a current session: the
call reduces to `createNewSession` alone — fresh empty session prepended,
made current and persisted — no user message appended anywhere, no HTTP
request issued, and the outcome independent of the network oracle. -/
def SendNoCurrentSpec (content : String) (env : Env) (res : ChatApiResult)
    (user : Option User) (st : ChatState) : Prop :=
  (sendMessage content env res user st).1 = createNewSession env user st ∧
  (sendMessage content env res user st).2 = none ∧
  (sendMessage content env res user st).1.sessions = newSessionOf env :: st.sessions ∧
  (sendMessage content env res user st).1.currentSession = some (newSessionOf env) ∧
  (newSessionOf env).messages = [] ∧
  (sendMessage content env res user st).1.store
      = saveSessions user st.store (newSessionOf env :: st.sessions) ∧
  ∀ res2, (sendMessage content env res2 user st).1 = (sendMessage content env res user st).1

/-- What claim C8 asserts of the auth startup: guest entry first, then the
registered entry, logged out when both are absent, and a parse failure of
either consulted entry clears both entries and logs out. -/
def CheckExistingSessionSpec (s : AuthStorage) : Prop :=
  (∀ u, s.guestUser = some (StoredUser.ok u) → checkExistingSession s = (some u, s)) ∧
  (s.guestUser = none → ∀ u, s.regularUser = some (StoredUser.ok u) →
      checkExistingSession s = (some u, s)) ∧
  (s.guestUser = none → s.regularUser = none → checkExistingSession s = (none, s)) ∧
  (s.guestUser = some StoredUser.bad → checkExistingSession s = (none, ⟨none, none⟩)) ∧
  (s.guestUser = none → s.regularUser = some StoredUser.bad →
      checkExistingSession s = (none, ⟨none, none⟩))

/-- Concrete message used by the witness theorems. -/
def exMessage : Message :=
  ⟨"m1", "hello", Role.user, 1, none⟩

/-- Concrete session used by the witness theorems. -/
def exSession : ChatSession :=
  ⟨"s1", "Trip A", [exMessage], 1, 1⟩

/-- Second concrete session used by the witness theorems. -/
def exSession2 : ChatSession :=
  ⟨"s2", "Trip B", [], 2, 2⟩

/-- Concrete user used by the witness theorems. -/
def exUser : User :=
  ⟨"u1", "u1@example.com", "U One", none⟩

/-- Concrete environment used by the witness theorems. -/
def exEnv : Env :=
  ⟨5, "1/1/2025"⟩

/-- Concrete state with a current session, used by the witness theorems. -/
def exState : ChatState :=
  ⟨[exSession, exSession2], some exSession, false, false, []⟩

/-- Concrete state without a current session, used by the witness theorems. -/
def exStateNoCurrent : ChatState :=
  ⟨[exSession], none, false, false, []⟩

/-- Concrete state whose store holds an empty collection for `exUser` while a
session is current: the startup-load counterexample state. -/
def exStateStale : ChatState :=
  ⟨[exSession], some exSession, false, false,
    [(sessionsKey "u1", StoredVal.sessions [])]⟩

/-- Concrete auth storage with a guest entry taking precedence. -/
def exAuthGuest : AuthStorage :=
  ⟨some (StoredUser.ok exUser), some StoredUser.bad⟩

/-- Concrete auth storage whose guest entry fails to parse. -/
def exAuthBad : AuthStorage :=
  ⟨some StoredUser.bad, some (StoredUser.ok exUser)⟩

theorem decodeRole_roleString (r : Role) : decodeRole (roleString r) = some r := by
  cases r <;> rfl

theorem decodeMessage_serializeMessage (m : Message) :
    decodeMessage (serializeMessage m) = some m := by
  cases m with
  | mk id content role timestamp isTyping => cases role <;> rfl

theorem traverseOption_map_self (f : β → Option α) (g : α → β)
    (h : ∀ a, f (g a) = some a) (l : List α) :
    traverseOption f (l.map g) = some l := by
  induction l with
  | nil => rfl
  | cons a as ih => simp [traverseOption, h a, ih]

theorem decodeSession_serializeSession (s : ChatSession) :
    decodeSession (serializeSession s) = some s := by
  cases s with
  | mk id title messages createdAt updatedAt =>
    simp [decodeSession, serializeSession,
      traverseOption_map_self decodeMessage serializeMessage decodeMessage_serializeMessage]

theorem decodeStored_serializeSessions (l : List ChatSession) :
    decodeStored (StoredVal.sessions (serializeSessions l)) = some l := by
  simp [decodeStored, serializeSessions,
    traverseOption_map_self decodeSession serializeSession decodeSession_serializeSession]

theorem getItem_setItem_self (store : Store) (k : String) (v : StoredVal) :
    getItem (setItem store k v) k = some v := by
  unfold getItem setItem
  rw [List.find?_cons_of_pos _ (by simp)]
  rfl

/-- Claim C3: writing a session collection through `saveSessions` and reading
it back through `loadSessions` in a fresh state reproduces the collection
exactly — same ids, titles, message contents and role tags in the same
order, every timestamp reconstructing to the same instant. -/
theorem save_load_roundtrip (u : User) (store : Store) (l : List ChatSession) :
    (loadSessions u ⟨[], none, false, false, saveSessions (some u) store l⟩).sessions = l := by
  simp only [loadSessions, saveSessions, getItem_setItem_self, decodeStored_serializeSessions]
  split <;> rfl

/-- Claim C10: with no active user the persistence write is a no-op — every
mutating operation (`createNewSession`, `sendMessage` for any network
outcome, `deleteSession`, `clearCurrentChat`) leaves the store untouched. -/
theorem no_user_no_persist (env : Env) (content sessionId : String)
    (res : ChatApiResult) (st : ChatState) :
    (createNewSession env none st).store = st.store ∧
    ((sendMessage content env res none st).1).store = st.store ∧
    (deleteSession sessionId none st).store = st.store ∧
    (clearCurrentChat env none st).store = st.store := by
  refine ⟨rfl, ?_, ?_, ?_⟩
  · rcases hc : st.currentSession with _ | cs
    · simp [sendMessage, hc, createNewSession, saveSessions]
    · rcases res with _ | responseText <;> simp [sendMessage, hc, saveSessions]
  · unfold deleteSession
    rcases st.currentSession with _ | cs
    · rfl
    · dsimp only
      split <;> rfl
  · unfold clearCurrentChat
    rcases st.currentSession with _ | cs <;> rfl

/-- Claim C1: when the chat HTTP call fails (rejected or non-ok), the settled
state shows the pre-call current session again — without the optimistically
appended user message — both the typing and loading flags are false, and the
sessions collection and the persisted store are unchanged. -/
theorem sendMessage_failure_reverts (content : String) (env : Env)
    (user : Option User) (st : ChatState) (cs : ChatSession)
    (h : st.currentSession = some cs) :
    SendFailureReverts content env user st cs := by
  unfold SendFailureReverts
  obtain ⟨sessions, cur, loadingB, typingB, store⟩ := st
  obtain rfl : cur = some cs := h
  refine ⟨rfl, rfl, rfl, rfl, rfl, ?_⟩
  intro hn s hs
  obtain rfl : cs = s := Option.some.inj hs
  exact hn

/-- Claim C9: calling `sendMessage` while no session is current only creates
a fresh empty session (prepended, made current, persisted) and returns — the
content is not appended to any session and no HTTP request is issued. -/
theorem sendMessage_noCurrent (content : String) (env : Env) (res : ChatApiResult)
    (user : Option User) (st : ChatState) (h : st.currentSession = none) :
    SendNoCurrentSpec content env res user st := by
  unfold SendNoCurrentSpec
  obtain ⟨sessions, cur, loadingB, typingB, store⟩ := st
  obtain rfl : cur = (none : Option ChatSession) := h
  exact ⟨rfl, rfl, rfl, rfl, rfl, rfl, fun res2 => rfl⟩

theorem currentOkB_eq_true {st : ChatState} :
    currentOkB st = true ↔
      ∀ cs, st.currentSession = some cs → ∃ s ∈ st.sessions, s.id = cs.id := by
  unfold currentOkB
  rcases h : st.currentSession with _ | cs <;> simp [List.any_eq_true]

theorem currentOk_create (env : Env) (user : Option User) (st : ChatState) :
    currentOkB (createNewSession env user st) = true := by
  rw [currentOkB_eq_true]
  intro cs hcs
  obtain rfl : newSessionOf env = cs := Option.some.inj hcs
  exact ⟨newSessionOf env, List.mem_cons_self _ _, rfl⟩

theorem currentOk_select (sessionId : String) (st : ChatState)
    (hok : currentOkB st = true) : currentOkB (selectSession sessionId st) = true := by
  rw [currentOkB_eq_true] at hok ⊢
  rcases hf : st.sessions.find? (fun s => s.id = sessionId) with _ | s <;>
    simp only [selectSession, hf]
  · exact hok
  · intro cs hcs
    obtain rfl : s = cs := Option.some.inj hcs
    exact ⟨s, List.mem_of_find?_eq_some hf, rfl⟩

theorem any_replace_mem {sessions : List ChatSession} {cid : String} (new : ChatSession)
    (hnew : new.id = cid) (h : ∃ s ∈ sessions, s.id = cid) :
    ∃ s ∈ sessions.map (fun s => if s.id = cid then new else s), s.id = cid := by
  obtain ⟨w, hw, hwid⟩ := h
  refine ⟨new, ?_, hnew⟩
  have hm := List.mem_map_of_mem (fun s => if s.id = cid then new else s) hw
  simpa [hwid] using hm

theorem currentOk_send (content : String) (env : Env) (res : ChatApiResult)
    (user : Option User) (st : ChatState) (hok : currentOkB st = true) :
    currentOkB ((sendMessage content env res user st).1) = true := by
  obtain ⟨sessions, cur, loadingB, typingB, store⟩ := st
  rcases cur with _ | cs
  · exact currentOk_create env user _
  · rcases res with _ | responseText
    · exact hok
    · rw [currentOkB_eq_true] at hok ⊢
      intro c hcs
      have hcc := Option.some.inj hcs
      subst hcc
      exact any_replace_mem _ rfl (hok cs rfl)

theorem deleteSession_sessions (sessionId : String) (user : Option User) (st : ChatState) :
    (deleteSession sessionId user st).sessions
      = st.sessions.filter (fun s => s.id ≠ sessionId) := by
  unfold deleteSession
  rcases st.currentSession with _ | cs
  · rfl
  · dsimp only
    split <;> rfl

theorem deleteSession_store (sessionId : String) (user : Option User) (st : ChatState) :
    (deleteSession sessionId user st).store
      = saveSessions user st.store (st.sessions.filter (fun s => s.id ≠ sessionId)) := by
  unfold deleteSession
  rcases st.currentSession with _ | cs
  · rfl
  · dsimp only
    split <;> rfl

theorem deleteSession_current_of_eq {st : ChatState} {cs : ChatSession} (sessionId : String)
    (user : Option User) (h : st.currentSession = some cs) (hid : cs.id = sessionId) :
    (deleteSession sessionId user st).currentSession
      = (st.sessions.filter (fun s => s.id ≠ sessionId)).head? := by
  unfold deleteSession
  simp only [h]
  rw [if_pos hid]

theorem deleteSession_current_of_ne {st : ChatState} {cs : ChatSession} (sessionId : String)
    (user : Option User) (h : st.currentSession = some cs) (hid : ¬ cs.id = sessionId) :
    (deleteSession sessionId user st).currentSession = some cs := by
  unfold deleteSession
  simp only [h]
  rw [if_neg hid]

theorem deleteSession_current_of_none (sessionId : String) (user : Option User)
    {st : ChatState} (h : st.currentSession = none) :
    (deleteSession sessionId user st).currentSession = none := by
  unfold deleteSession
  simp only [h]

theorem currentOk_delete (sessionId : String) (user : Option User) (st : ChatState)
    (hok : currentOkB st = true) : currentOkB (deleteSession sessionId user st) = true := by
  rw [currentOkB_eq_true] at hok ⊢
  intro c hcs
  rw [deleteSession_sessions]
  rcases hcur : st.currentSession with _ | cs
  · rw [deleteSession_current_of_none sessionId user hcur] at hcs
    cases hcs
  · by_cases hid : cs.id = sessionId
    · rw [deleteSession_current_of_eq sessionId user hcur hid] at hcs
      rcases hl : st.sessions.filter (fun s => s.id ≠ sessionId) with _ | ⟨x, xs⟩
      · rw [hl] at hcs
        cases hcs
      · rw [hl] at hcs
        obtain rfl : x = c := Option.some.inj hcs
        rw [hl]
        exact ⟨x, List.mem_cons_self _ _, rfl⟩
    · rw [deleteSession_current_of_ne sessionId user hcur hid] at hcs
      obtain rfl : cs = c := Option.some.inj hcs
      obtain ⟨w, hw, hwid⟩ := hok cs hcur
      refine ⟨w, ?_, hwid⟩
      rw [List.mem_filter]
      refine ⟨hw, ?_⟩
      simp only [hwid]
      simpa using hid

theorem currentOk_clear (env : Env) (user : Option User) (st : ChatState)
    (hok : currentOkB st = true) : currentOkB (clearCurrentChat env user st) = true := by
  obtain ⟨sessions, cur, loadingB, typingB, store⟩ := st
  rcases cur with _ | cs
  · exact hok
  · rw [currentOkB_eq_true] at hok ⊢
    intro c hcs
    have hcc := Option.some.inj hcs
    subst hcc
    exact any_replace_mem _ rfl (hok cs rfl)

theorem currentOk_load (u : User) (st : ChatState) (h : st.currentSession = none) :
    currentOkB (loadSessions u st) = true := by
  rcases hg : getItem st.store (sessionsKey u.id) with _ | v <;>
    simp only [loadSessions, hg]
  · simp [currentOkB, h]
  · rcases hd : decodeStored v with _ | parsed <;> simp only [hd]
    · simp [currentOkB, h]
    · split
      · rename_i hcond
        rw [currentOkB_eq_true]
        intro c hcs
        rcases parsed with _ | ⟨p, ps⟩
        · simp at hcond
        · obtain rfl : p = c := Option.some.inj hcs
          exact ⟨p, List.mem_cons_self _ _, rfl⟩
      · rw [currentOkB_eq_true]
        intro c hcs
        have hc2 : st.currentSession = some c := hcs
        rw [h] at hc2
        cases hc2

/-- Claim C2 fails as stated: from a state satisfying the membership
invariant, the startup load of persisted sessions can leave a current
session that is not a member of the collection.  Here the active user has an
empty persisted collection while a session is current: after `loadSessions`
the collection is empty but the old session is still current. -/
theorem currentSession_membership_counterexample :
    currentOkB exStateStale = true ∧
    currentOkB (loadSessions exUser exStateStale) = false :=
  ⟨by decide, by decide⟩

/-- Claim C2 (amended): the membership invariant — the current session, if
non-null, shares its id with some member of the collection — is preserved by
`createNewSession`, `selectSession`, `sendMessage`, `deleteSession` (in
particular it is re-established after deleting the current session) and
`clearCurrentChat`, and is established by the startup load when no session
is current; the startup load with a session already current can break it. -/
theorem currentSession_membership (st : ChatState) :
    (∀ env user, currentOkB (createNewSession env user st) = true) ∧
    (∀ sessionId, currentOkB st = true → currentOkB (selectSession sessionId st) = true) ∧
    (∀ content env res user, currentOkB st = true →
        currentOkB ((sendMessage content env res user st).1) = true) ∧
    (∀ sessionId user, currentOkB st = true →
        currentOkB (deleteSession sessionId user st) = true) ∧
    (∀ env user, currentOkB st = true → currentOkB (clearCurrentChat env user st) = true) ∧
    (∀ u, st.currentSession = none → currentOkB (loadSessions u st) = true) :=
  ⟨fun env user => currentOk_create env user st,
   fun sessionId h => currentOk_select sessionId st h,
   fun content env res user h => currentOk_send content env res user st h,
   fun sessionId user h => currentOk_delete sessionId user st h,
   fun env user h => currentOk_clear env user st h,
   fun u h => currentOk_load u st h⟩

/-- Claim C4 fails as stated: the source lowercases the message and splits it
on the space character only, while the claim splits the (unlowercased)
message on whitespace.  On a message containing a newline and uppercase
letters the two algorithms disagree. -/
theorem generateSessionTitle_counterexample :
    generateSessionTitleClaimed "Plan visiting\nKYOTO" "1/1/2025" = "Trip to Plan" ∧
    generateSessionTitle "Plan visiting\nKYOTO" "1/1/2025" = "Trip to Visiting\nkyoto" ∧
    ¬ generateSessionTitleClaimed "Plan visiting\nKYOTO" "1/1/2025"
        = generateSessionTitle "Plan visiting\nKYOTO" "1/1/2025" :=
  ⟨by decide, by decide, by decide⟩

/-- Claim C4 (amended): title generation lowercases the message, splits it on
the space character, discards tokens of length ≤ 3 and the stoplist words
trip, plan, travel, visit, going, want, like, help, and returns
"Trip to {first surviving token, first character uppercased}" when a token
survives, otherwise "Trip Plan - {localized date string}"; the input
"I want to visit Kyoto this spring" yields "Trip to Kyoto", and an input of
only stoplisted or short words yields the dated fallback. -/
theorem generateSessionTitle_amended :
    (∀ m d w ws, destinationsOf m = w :: ws →
        generateSessionTitle m d = "Trip to " ++ capitalizeFirst w) ∧
    (∀ m d, destinationsOf m = [] → generateSessionTitle m d = "Trip Plan - " ++ d) ∧
    (∀ d, generateSessionTitle "I want to visit Kyoto this spring" d = "Trip to Kyoto") ∧
    (∀ d, generateSessionTitle "help me plan trip" d = "Trip Plan - " ++ d) := by
  refine ⟨?_, ?_, ?_, ?_⟩
  · intro m d w ws h
    unfold generateSessionTitle
    rw [h]
  · intro m d h
    unfold generateSessionTitle
    rw [h]
  · intro d
    unfold generateSessionTitle
    rw [show destinationsOf "I want to visit Kyoto this spring"
          = ["kyoto", "this", "spring"] from by decide]
    rfl
  · intro d
    unfold generateSessionTitle
    rw [show destinationsOf "help me plan trip" = ([] : List String) from by decide]

/-- Claim C5: `deleteSession` removes exactly the sessions with the given id
(order preserved) and persists the remainder; when the deleted session was
current, the head of the remainder (or nothing) becomes current; when it was
not, the current session is unchanged. -/
theorem deleteSession_spec (sessionId : String) (user : Option User) (st : ChatState)
    (_hmem : sessionId ∈ st.sessions.map (fun s => s.id)) :
    DeleteSessionSpec sessionId user st := by
  unfold DeleteSessionSpec
  refine ⟨?_, ?_, ?_, ?_, ?_, ?_⟩
  · intro s
    rw [deleteSession_sessions]
    simp [List.mem_filter]
  · rw [deleteSession_sessions]
    exact List.filter_sublist _
  · rw [deleteSession_store, deleteSession_sessions]
  · intro cs hcur hid
    rw [deleteSession_current_of_eq sessionId user hcur hid, deleteSession_sessions]
  · intro cs hcur hid
    exact deleteSession_current_of_ne sessionId user hcur hid
  · intro h
    exact deleteSession_current_of_none sessionId user h

/-- Claim C6: `searchSessions` with an empty or whitespace-only query returns
the full collection unfiltered, and with any non-blank query returns exactly
the sessions whose title or some message content contains the query
case-insensitively; as a pure read it changes neither state nor store. -/
theorem searchSessions_spec (st : ChatState) :
    searchSessions st "" = st.sessions ∧
    searchSessions st "   " = st.sessions ∧
    (∀ q, trimStr q = "" → searchSessions st q = st.sessions) ∧
    (∀ q, trimStr q ≠ "" →
      (searchSessions st q).Sublist st.sessions ∧
      (∀ s, s ∈ searchSessions st q ↔ s ∈ st.sessions ∧
        (strIncludes (toLowerStr s.title) (toLowerStr q) = true ∨
         ∃ m ∈ s.messages, strIncludes (toLowerStr m.content) (toLowerStr q) = true))) := by
  refine ⟨rfl, rfl, ?_, ?_⟩
  · intro q h
    unfold searchSessions
    rw [if_pos h]
  · intro q h
    unfold searchSessions
    rw [if_neg h]
    refine ⟨List.filter_sublist _, ?_⟩
    intro s
    simp [List.mem_filter, List.any_eq_true]

/-- Claim C7: a message is flagged as containing a trip plan exactly when it
is assistant-authored and its lowercased content contains one of "itinerary",
"day 1", "schedule", "trip plan", or its raw content contains both "## Day"
and "**Start Date:**"; an assistant message saying "Here is your itinerary"
is flagged, and a user-authored message never is. -/
theorem containsTripPlan_spec :
    (∀ m, containsTripPlan m = true ↔
      (m.role = Role.assistant ∧
        (strIncludes (toLowerStr m.content) "itinerary" = true ∨
         strIncludes (toLowerStr m.content) "day 1" = true ∨
         strIncludes (toLowerStr m.content) "schedule" = true ∨
         strIncludes (toLowerStr m.content) "trip plan" = true ∨
         (strIncludes m.content "## Day" = true ∧
          strIncludes m.content "**Start Date:**" = true)))) ∧
    containsTripPlan ⟨"m1", "Here is your itinerary", Role.assistant, 0, none⟩ = true ∧
    (∀ id content ts ty, containsTripPlan ⟨id, content, Role.user, ts, ty⟩ = false) := by
  refine ⟨?_, by decide, ?_⟩
  · intro m
    unfold containsTripPlan
    rcases hm : m.role with _ | _
    · simp [hm, show (Role.user == Role.user) = true from rfl]
    · simp [hm, show (Role.assistant == Role.user) = false from rfl, or_assoc]
  · intro id content ts ty
    unfold containsTripPlan
    simp [show (Role.user == Role.user) = true from rfl]

/-- Claim C8: at auth startup the guest entry is consulted first and its user
becomes active when it parses; otherwise the registered entry is consulted
the same way; with neither present the state is logged out; and a parse
failure of the consulted entry removes both entries and logs out. -/
theorem checkExistingSession_spec (s : AuthStorage) : CheckExistingSessionSpec s := by
  unfold CheckExistingSessionSpec
  obtain ⟨g, r⟩ := s
  refine ⟨?_, ?_, ?_, ?_, ?_⟩
  · intro u hg
    obtain rfl : g = some (StoredUser.ok u) := hg
    rfl
  · intro hg u hr
    obtain rfl : g = none := hg
    obtain rfl : r = some (StoredUser.ok u) := hr
    rfl
  · intro hg hr
    obtain rfl : g = none := hg
    obtain rfl : r = none := hr
    rfl
  · intro hg
    obtain rfl : g = some StoredUser.bad := hg
    rfl
  · intro hg hr
    obtain rfl : g = none := hg
    obtain rfl : r = some StoredUser.bad := hr
    rfl

/-- Witness for the failing-send theorem at a concrete state. -/
theorem sendMessage_failure_reverts_witness :
    exState.currentSession = some exSession ∧
    SendFailureReverts "hi" exEnv none exState exSession :=
  ⟨rfl, sendMessage_failure_reverts "hi" exEnv none exState exSession rfl⟩

/-- Witness for the membership-invariant theorem at concrete states. -/
theorem currentSession_membership_witness :
    currentOkB exState = true ∧
    currentOkB (createNewSession exEnv none exState) = true ∧
    currentOkB (selectSession "s2" exState) = true ∧
    currentOkB ((sendMessage "hi" exEnv (ChatApiResult.success "ok") none exState).1) = true ∧
    currentOkB (deleteSession "s1" none exState) = true ∧
    currentOkB (clearCurrentChat exEnv none exState) = true ∧
    exStateNoCurrent.currentSession = none ∧
    currentOkB (loadSessions exUser exStateNoCurrent) = true :=
  ⟨by decide,
   (currentSession_membership exState).1 exEnv none,
   (currentSession_membership exState).2.1 "s2" (by decide),
   (currentSession_membership exState).2.2.1 "hi" exEnv (ChatApiResult.success "ok") none
     (by decide),
   (currentSession_membership exState).2.2.2.1 "s1" none (by decide),
   (currentSession_membership exState).2.2.2.2.1 exEnv none (by decide),
   rfl,
   (currentSession_membership exStateNoCurrent).2.2.2.2.2 exUser rfl⟩

/-- Witness for the amended title-generation theorem at concrete inputs. -/
theorem generateSessionTitle_amended_witness :
    destinationsOf "I want to visit Kyoto this spring" = "kyoto" :: ["this", "spring"] ∧
    generateSessionTitle "I want to visit Kyoto this spring" "1/1/2025"
      = "Trip to " ++ capitalizeFirst "kyoto" ∧
    destinationsOf "help me plan trip" = [] ∧
    generateSessionTitle "help me plan trip" "1/1/2025" = "Trip Plan - " ++ "1/1/2025" :=
  ⟨by decide,
   generateSessionTitle_amended.1 "I want to visit Kyoto this spring" "1/1/2025" "kyoto"
     ["this", "spring"] (by decide),
   by decide,
   generateSessionTitle_amended.2.1 "help me plan trip" "1/1/2025" (by decide)⟩

/-- Witness for the delete theorem at a concrete state. -/
theorem deleteSession_spec_witness :
    "s1" ∈ exState.sessions.map (fun s => s.id) ∧ DeleteSessionSpec "s1" none exState :=
  ⟨by decide, deleteSession_spec "s1" none exState (by decide)⟩

/-- Witness for the search theorem at a concrete non-blank query. -/
theorem searchSessions_spec_witness :
    trimStr "kyoto" ≠ "" ∧
    ((searchSessions exState "kyoto").Sublist exState.sessions ∧
      (∀ s, s ∈ searchSessions exState "kyoto" ↔ s ∈ exState.sessions ∧
        (strIncludes (toLowerStr s.title) (toLowerStr "kyoto") = true ∨
         ∃ m ∈ s.messages, strIncludes (toLowerStr m.content) (toLowerStr "kyoto") = true))) :=
  ⟨by decide, (searchSessions_spec exState).2.2.2 "kyoto" (by decide)⟩

/-- Witness for the trip-plan-detection theorem at a concrete message. -/
theorem containsTripPlan_spec_witness :
    containsTripPlan ⟨"m2", "the schedule is ready", Role.assistant, 0, none⟩ = true ∧
    containsTripPlan ⟨"m3", "Here is your itinerary", Role.user, 0, none⟩ = false :=
  ⟨(containsTripPlan_spec.1 ⟨"m2", "the schedule is ready", Role.assistant, 0, none⟩).2
     ⟨rfl, Or.inr (Or.inr (Or.inl (by decide)))⟩,
   containsTripPlan_spec.2.2 "m3" "Here is your itinerary" 0 none⟩

/-- Witness for the auth-startup theorem at concrete storages. -/
theorem checkExistingSession_spec_witness :
    exAuthGuest.guestUser = some (StoredUser.ok exUser) ∧
    checkExistingSession exAuthGuest = (some exUser, exAuthGuest) ∧
    exAuthBad.guestUser = some StoredUser.bad ∧
    checkExistingSession exAuthBad = (none, ⟨none, none⟩) :=
  ⟨rfl, (checkExistingSession_spec exAuthGuest).1 exUser rfl, rfl,
   (checkExistingSession_spec exAuthBad).2.2.2.1 rfl⟩

/-- Witness for the no-current-session send theorem at a concrete state. -/
theorem sendMessage_noCurrent_witness :
    exStateNoCurrent.currentSession = none ∧
    SendNoCurrentSpec "hi" exEnv ChatApiResult.failure none exStateNoCurrent :=
  ⟨rfl, sendMessage_noCurrent "hi" exEnv ChatApiResult.failure none exStateNoCurrent rfl⟩

end TripPlanner
